import Mathlib

/-!
Verification of the transaction extraction and organization-mapping pipeline
implemented in `transaction_parser.py` of the download_inbox repository.

The Python source is shallowly embedded: each helper of the
`TransactionParser` class becomes an executable Lean definition over explicit
data (cell values, association-list rows, an in-memory mapping store paired
with its persisted file image).  Library calls that the source delegates to
(`float(...)`, `datetime.strptime`, `pandas.to_datetime`, `pandas.isna`) are
modelled by small executable functions whose doc comments state exactly which
library behaviour they capture.
-/

set_option maxRecDepth 8000

namespace TxParser

/-! ### Cell values

A pandas cell reaching the row-level helpers is either a string or the NaN
missing-value marker (`_read_transaction_file` forces the id columns to `str`;
blank cells surface as NaN).  `pd.notna` and Python `str(...)` on such a cell
are modelled directly. -/

/-- A cell value as seen by the row-level parsing helpers: a string, or the
pandas missing-value marker NaN. -/
inductive Value where
  | vStr (s : String)
  | vNA
deriving DecidableEq

/-- Model of `pd.notna` on a cell: `False` exactly on the NaN marker. -/
def pdNotNa : Value → Bool
  | .vStr _ => true
  | .vNA => false

/-- Model of Python `str(...)` on a cell: the string itself, and `"nan"` for
the NaN marker (Python renders `float("nan")` as `"nan"`). -/
def pyStr : Value → String
  | .vStr s => s
  | .vNA => "nan"

/-- Model of Python `str.strip()`: remove leading and trailing whitespace. -/
def pyStrip (s : String) : String :=
  String.mk ((((s.data.dropWhile Char.isWhitespace).reverse).dropWhile
    Char.isWhitespace).reverse)

/-- Model of Python `str.lower()` (per-character lowering; headers and
candidates in this program are ASCII). -/
def pyLower (s : String) : String :=
  String.mk (s.data.map Char.toLower)

/-- Model of Python `str.startswith(p)`. -/
def pyStartsWith (s p : String) : Bool :=
  p.data.isPrefixOf s.data

/-! ### Python float coercion

`_parse_total_price` and `_parse_total_discount` call the builtin
`float(...)` and catch `ValueError`/`TypeError`.  The builtin is modelled on
the values above: it strips whitespace, accepts an optional sign followed by
`inf`/`infinity`/`nan` (case-insensitively) or a decimal literal with an
optional fraction and exponent, and fails on anything else.  Finite results
are carried as exact rationals: which inputs succeed, and whether the result
is finite, match the builtin; only the rounding of finite values to binary
floating point is dropped, which no theorem below depends on. -/

/-- The result of a successful Python `float(...)` call, keeping the
finite / infinite / NaN distinction. -/
inductive PyFloat where
  | finite (q : ℚ)
  | posInf
  | negInf
  | nan
deriving DecidableEq

/-- Whether a Python float value is finite. -/
def isFinite : PyFloat → Bool
  | .finite _ => true
  | _ => false

/-- Numeric value of a list of decimal digit characters. -/
def natOfDigits (ds : List Char) : Nat :=
  ds.foldl (fun acc c => acc * 10 + (c.toNat - '0'.toNat)) 0

/-- Parse the optional exponent part of a Python float literal; the whole
remaining input must be consumed. -/
def parseExponent (cs : List Char) : Option Int :=
  match cs with
  | [] => some 0
  | e :: rest =>
    if e = 'e' ∨ e = 'E' then
      let signRest : Int × List Char :=
        match rest with
        | '+' :: r => (1, r)
        | '-' :: r => (-1, r)
        | r => (1, r)
      let ds := signRest.2.takeWhile Char.isDigit
      let rest3 := signRest.2.drop ds.length
      if ds.isEmpty ∨ ¬ rest3.isEmpty then none
      else some (signRest.1 * (natOfDigits ds : Int))
    else none

/-- Parse the unsigned decimal part (mantissa and optional exponent) of a
Python float literal; the value `mantissa * 10 ^ (exponent - fraction length)`
is assembled with exact integer arithmetic. -/
def parseDecimalChars (sign : Int) (cs : List Char) : Option PyFloat :=
  let intDs := cs.takeWhile Char.isDigit
  let r1 := cs.drop intDs.length
  let fracSplit : List Char × List Char :=
    match r1 with
    | '.' :: rest => (rest.takeWhile Char.isDigit, rest.drop (rest.takeWhile Char.isDigit).length)
    | _ => ([], r1)
  let fracDs := fracSplit.1
  if intDs.isEmpty ∧ fracDs.isEmpty then none
  else
    match parseExponent fracSplit.2 with
    | none => none
    | some e =>
      let mantissa : Int := (natOfDigits (intDs ++ fracDs) : Int)
      let exp : Int := e - (fracDs.length : Int)
      let q : ℚ :=
        if 0 ≤ exp then Rat.divInt (sign * mantissa * (10 : Int) ^ exp.toNat) 1
        else Rat.divInt (sign * mantissa) ((10 : Int) ^ (-exp).toNat)
      some (.finite q)

/-- Model of the Python builtin `float(str)`: strip whitespace, then an
optional sign followed by `inf`/`infinity`/`nan` (case-insensitive) or a
decimal literal.  `none` models `ValueError`. -/
def pyFloatOfString (s : String) : Option PyFloat :=
  let t := pyStrip s
  let signRest : Int × List Char :=
    match t.data with
    | '+' :: r => (1, r)
    | '-' :: r => (-1, r)
    | r => (1, r)
  let lower := signRest.2.map Char.toLower
  if lower = "inf".data ∨ lower = "infinity".data then
    some (if signRest.1 = 1 then .posInf else .negInf)
  else if lower = "nan".data then some .nan
  else parseDecimalChars signRest.1 signRest.2

/-- Model of `float(cell)` on a pandas cell: strings go through the string
grammar; the NaN marker coerces to NaN without an exception. -/
def pyFloatOfValue : Value → Option PyFloat
  | .vStr s => pyFloatOfString s
  | .vNA => some .nan

/-! ### Row-level field parsers (`_parse_card_number`, `_parse_total_price`,
`_parse_total_discount`) -/

/-- Embedding of `TransactionParser._parse_card_number`: a non-NA cell whose
stripped string form is non-empty is accepted exactly when that stripped form
has length 19 and starts with `"9643"`; every other cell yields `none`
(the caller skips the row). -/
def parseCardNumber (v : Value) : Option String :=
  if pdNotNa v && !(pyStrip (pyStr v) == "") then
    let c := pyStrip (pyStr v)
    if c.length == 19 && pyStartsWith c "9643" then some c else none
  else none

/-- Embedding of `TransactionParser._parse_total_price`: `float(total_price)`
with `ValueError`/`TypeError` mapped to `none`. -/
def parseTotalPrice (v : Value) : Option PyFloat :=
  pyFloatOfValue v

/-- Embedding of `TransactionParser._parse_total_discount`: same coercion as
the price parser, `none` on failure. -/
def parseTotalDiscount (v : Value) : Option PyFloat :=
  pyFloatOfValue v

/-! ### Date normalization (`normalize_date_format`)

`datetime.strptime` is modelled by a format-directed parser over the exact
directive set the source's `DATE_FORMATS` use (`%Y %m %d %H %M %S %f` plus
literal characters), including the range validation the `datetime`
constructor performs; a failed parse (`ValueError`) is `none`.  Each numeric
directive greedily consumes up to its maximal digit count, which agrees with
CPython for the separator-delimited patterns in `DATE_FORMATS`. -/

/-- A parsed calendar timestamp, as produced by `datetime.strptime` /
`pandas.to_datetime`. -/
structure DateTime where
  year : Nat
  month : Nat
  day : Nat
  hour : Nat
  minute : Nat
  second : Nat
  microsecond : Nat
deriving DecidableEq

/-- The field defaults `strptime` uses for directives that a format does not
mention (year 1900, January 1st, midnight). -/
def strptimeDefault : DateTime :=
  ⟨1900, 1, 1, 0, 0, 0, 0⟩

/-- Consume at most `maxN` leading digits (at least one) from the input. -/
def takeDigits (maxN : Nat) (cs : List Char) : Option (List Char × List Char) :=
  let ds := (cs.take maxN).takeWhile Char.isDigit
  if ds.isEmpty then none else some (ds, cs.drop ds.length)

/-- Maximal digit width of a `strptime` directive. -/
def directiveWidth (c : Char) : Nat :=
  if c = 'Y' then 4 else if c = 'f' then 6 else 2

/-- Store the digits consumed by a directive into the timestamp under
construction; `%f` right-pads to microseconds as CPython does.  An unknown
directive fails (CPython raises for it). -/
def setDirective (c : Char) (ds : List Char) (acc : DateTime) : Option DateTime :=
  let n := natOfDigits ds
  if c = 'Y' then some { acc with year := n }
  else if c = 'm' then some { acc with month := n }
  else if c = 'd' then some { acc with day := n }
  else if c = 'H' then some { acc with hour := n }
  else if c = 'M' then some { acc with minute := n }
  else if c = 'S' then some { acc with second := n }
  else if c = 'f' then some { acc with microsecond := n * 10 ^ (6 - ds.length) }
  else none

/-- The format-directed parsing loop of `strptime`: directives consume digit
runs, other format characters must match the input literally, and the whole
input must be consumed. -/
def strptimeRun : List Char → List Char → DateTime → Option DateTime
  | [], input, acc => if input.isEmpty then some acc else none
  | '%' :: c :: rest, input, acc =>
    match takeDigits (directiveWidth c) input with
    | none => none
    | some (ds, rem) =>
      match setDirective c ds acc with
      | none => none
      | some acc2 => strptimeRun rest rem acc2
  | c :: rest, input, acc =>
    match input with
    | [] => none
    | i :: irest => if i = c then strptimeRun rest irest acc else none

/-- Gregorian leap-year test, as used by `datetime`. -/
def isLeapYear (y : Nat) : Bool :=
  (y % 4 = 0 && y % 100 ≠ 0) || y % 400 = 0

/-- Number of days in a month, as enforced by the `datetime` constructor. -/
def daysInMonth (y m : Nat) : Nat :=
  if m = 2 then (if isLeapYear y then 29 else 28)
  else if m = 4 ∨ m = 6 ∨ m = 9 ∨ m = 11 then 30
  else 31

/-- The range validation the `datetime` constructor performs; `strptime`
raises `ValueError` when it fails. -/
def isValidDateTime (d : DateTime) : Bool :=
  decide (1 ≤ d.year) && decide (d.year ≤ 9999) &&
  decide (1 ≤ d.month) && decide (d.month ≤ 12) &&
  decide (1 ≤ d.day) && decide (d.day ≤ daysInMonth d.year d.month) &&
  decide (d.hour ≤ 23) && decide (d.minute ≤ 59) && decide (d.second ≤ 59) &&
  decide (d.microsecond ≤ 999999)

/-- Model of `datetime.strptime(s, fmt)`: run the format loop from the
default fields and validate; `none` models `ValueError`. -/
def strptime (s fmt : String) : Option DateTime :=
  match strptimeRun fmt.data s.data strptimeDefault with
  | none => none
  | some d => if isValidDateTime d then some d else none

/-- The `DATE_FORMATS` tuple of the source, in its exact order. -/
def DATE_FORMATS : List String :=
  ["%Y-%m-%d %H:%M:%S",
   "%Y-%m-%d",
   "%d/%m/%Y",
   "%d.%m.%Y",
   "%m/%d/%Y",
   "%Y-%m-%d %H:%M",
   "%d/%m/%Y %H:%M",
   "%d.%m.%Y %H:%M",
   "%Y-%m-%dT%H:%M:%S",
   "%Y-%m-%dT%H:%M:%SZ",
   "%Y-%m-%dT%H:%M:%S.%fZ"]

/-- Left-pad a number with zeros to the given width. -/
def padNum (width n : Nat) : String :=
  let s := toString n
  String.mk (List.replicate (width - s.length) '0') ++ s

/-- Model of `datetime.isoformat()`: `YYYY-MM-DDTHH:MM:SS`, with a 6-digit
fractional part appended exactly when the microsecond field is nonzero. -/
def isoformat (d : DateTime) : String :=
  padNum 4 d.year ++ "-" ++ padNum 2 d.month ++ "-" ++ padNum 2 d.day ++ "T" ++
  padNum 2 d.hour ++ ":" ++ padNum 2 d.minute ++ ":" ++ padNum 2 d.second ++
  (if d.microsecond = 0 then "" else "." ++ padNum 6 d.microsecond)

/-- Model of the `pandas.to_datetime` best-effort fallback parser: it never
succeeds on a string without any decimal digit (such as `"not-a-date"`), and
on digit-bearing strings it attempts a family of ISO-like layouts.  The
library recognizes more layouts than this model; no theorem below relies on
the fallback succeeding, only on its failures and on the shape of its
successes. -/
def pdToDatetime (s : String) : Option DateTime :=
  if s.data.any Char.isDigit then
    (DATE_FORMATS ++ ["%Y/%m/%d", "%Y.%m.%d", "%d-%m-%Y", "%Y%m%d"]).findSome?
      (fun fmt => strptime s fmt)
  else none

/-- Embedding of `TransactionParser.normalize_date_format`: `None` for an NA
cell; otherwise try every `DATE_FORMATS` pattern in order on the stripped
string form and render the first success as ISO-8601; fall back to the
generic pandas parser; `none` when everything fails.  Every branch returns —
the source catches every exception its libraries can raise here. -/
def normalizeDateFormat (v : Value) : Option String :=
  match v with
  | .vNA => none
  | .vStr s =>
    let dateStr := pyStrip s
    match DATE_FORMATS.findSome? (fun fmt => strptime dateStr fmt) with
    | some d => some (isoformat d)
    | none =>
      match pdToDatetime dateStr with
      | some d => some (isoformat d)
      | none => none

/-! ### Column resolution (`find_column_by_names`, `COLUMN_NAME_CANDIDATES`) -/

/-- The header normalization of `find_column_by_names`:
`x.lower().replace('_', '').replace(' ', '')`. -/
def normalizeHeader (s : String) : String :=
  String.mk (((s.data.map Char.toLower).filter (fun c => c != '_')).filter
    (fun c => c != ' '))

/-- Embedding of `TransactionParser.find_column_by_names`: scan the candidate
names in priority order and, for each, the table's column headers in table
order; return the first header whose normalized form equals the candidate's
normalized form, `none` when no pair matches. -/
def findColumnByNames (columns : List String) (possibleNames : List String) :
    Option String :=
  possibleNames.findSome? (fun name =>
    columns.find? (fun col => normalizeHeader col == normalizeHeader name))

/-- `COLUMN_NAME_CANDIDATES["datetime"]`. -/
def datetimeCandidates : List String :=
  ["date-time_transaction", "datetime_transaction"]

/-- `COLUMN_NAME_CANDIDATES["id_transaction"]`. -/
def idTransactionCandidates : List String := ["id_transaction"]

/-- `COLUMN_NAME_CANDIDATES["card_number"]`. -/
def cardNumberCandidates : List String := ["id_card"]

/-- `COLUMN_NAME_CANDIDATES["total_price"]`. -/
def totalPriceCandidates : List String := ["total_price"]

/-- `COLUMN_NAME_CANDIDATES["total_discount"]`. -/
def totalDiscountCandidates : List String := ["total_discount"]

/-! ### Building transactions (`_build_transaction`, `_extract_transactions`)

A DataFrame row is an association list from column header to cell value;
`row[col]` on a header the row does not carry raises `KeyError`, which
`_extract_transactions` catches and counts as a failed row, so a missing
lookup aborts the row exactly like a `TransactionSkip`. -/

/-- A DataFrame row: column header to cell value. -/
abbrev Row := List (String × Value)

/-- Model of `row[col]`: the first binding for the header, `none` for the
`KeyError` case. -/
def getCell (row : Row) (col : String) : Option Value :=
  (row.find? (fun p => p.1 == col)).map (fun p => p.2)

/-- The transaction record `_build_transaction` assembles.  `datetime` is
`none` when no datetime column was passed (the key is never set) and
`some d` when it was, `d` being the normalization result (possibly `none`). -/
structure Transaction where
  datetime : Option (Option String)
  idTransaction : Option String
  cardNumber : String
  totalPrice : PyFloat
  totalDiscount : PyFloat
deriving DecidableEq

/-- The tail of `_build_transaction` after the datetime key has been handled:
id stringification, then card / price / discount parsing in source order,
each failure aborting the row. -/
def buildTransactionRest (row : Row) (dtField : Option (Option String))
    (idTransactionCol cardNumberCol totalPriceCol : String)
    (totalDiscountCol : Option String) : Option Transaction :=
  match getCell row idTransactionCol with
  | none => none
  | some idVal =>
    let idField : Option String :=
      if pdNotNa idVal then some (pyStrip (pyStr idVal)) else none
    match getCell row cardNumberCol with
    | none => none
    | some cardVal =>
      match parseCardNumber cardVal with
      | none => none
      | some card =>
        match getCell row totalPriceCol with
        | none => none
        | some priceVal =>
          match parseTotalPrice priceVal with
          | none => none
          | some price =>
            match totalDiscountCol with
            | none => none
            | some dcol =>
              match getCell row dcol with
              | none => none
              | some discVal =>
                match parseTotalDiscount discVal with
                | none => none
                | some disc =>
                  some ⟨dtField, idField, card, price, disc⟩

/-- Embedding of `TransactionParser._build_transaction`: set the datetime key
when a datetime column was resolved, then run the rest of the field chain.
`none` covers both `TransactionSkip` and the `KeyError` path — the caller
counts both as a failed row.  Note that `total_discount_col = None` aborts
the row (`row[None]` raises); `parse_file_detailed` never reaches this case
because the column is required there. -/
def buildTransaction (row : Row) (datetimeCol : Option String)
    (idTransactionCol cardNumberCol totalPriceCol : String)
    (totalDiscountCol : Option String) : Option Transaction :=
  match datetimeCol with
  | none =>
    buildTransactionRest row none idTransactionCol cardNumberCol totalPriceCol
      totalDiscountCol
  | some c =>
    match getCell row c with
    | none => none
    | some v =>
      buildTransactionRest row (some (normalizeDateFormat v)) idTransactionCol
        cardNumberCol totalPriceCol totalDiscountCol

/-- The `(transactions, extracted_count, failed_count)` triple
`_extract_transactions` returns. -/
structure ExtractResult where
  transactions : List Transaction
  extracted : Nat
  failed : Nat
deriving DecidableEq

/-- Embedding of `TransactionParser._extract_transactions`: iterate the rows
in order; a built transaction is appended and counted extracted, any aborted
row is counted failed. -/
def extractTransactions (rows : List Row) (datetimeCol : Option String)
    (idTransactionCol cardNumberCol totalPriceCol : String)
    (totalDiscountCol : Option String) : ExtractResult :=
  rows.foldl
    (fun acc row =>
      match buildTransaction row datetimeCol idTransactionCol cardNumberCol
          totalPriceCol totalDiscountCol with
      | some t =>
        { acc with
          transactions := acc.transactions ++ [t],
          extracted := acc.extracted + 1 }
      | none => { acc with failed := acc.failed + 1 })
    ⟨[], 0, 0⟩

/-! ### The organization mapping store

The JSON-backed `org_mapping` dictionary is an insertion-ordered association
list; the paired `saved` field is the file image `save_org_mapping` writes
(persistence failure is logged and changes nothing, so a successful write is
modelled). -/

/-- The value stored for one organization: a dict carrying a string token, a
dict without a usable token (no `token` key, or a null one), a bare string
used directly as the token, or any other JSON value. -/
inductive OrgData where
  | entry (token : String) (orgName : String)
  | dictNoToken
  | bare (s : String)
  | other
deriving DecidableEq

/-- Embedding of `TransactionParser._extract_token`: a dict yields its
`token` value (`none` when absent or null), a bare string yields itself, any
other shape yields `none` after a warning. -/
def extractToken : OrgData → Option String
  | .entry t _ => some t
  | .dictNoToken => none
  | .bare s => some s
  | .other => none

/-- The in-memory organization mapping. -/
abbrev OrgMapping := List (String × OrgData)

/-- Embedding of `TransactionParser.get_org_id_by_folder_name`: return the
extracted token of the first entry whose key equals the folder name after
lower-casing both, `none` when no key matches. -/
def getOrgIdByFolderName (mapping : OrgMapping) (folderName : String) :
    Option String :=
  match mapping.find? (fun p => pyLower p.1 == pyLower folderName) with
  | some p => extractToken p.2
  | none => none

/-- The mapping store state: the in-memory table and the persisted file
image. -/
structure OrgStore where
  mapping : OrgMapping
  saved : OrgMapping
deriving DecidableEq

/-- Embedding of `TransactionParser.save_org_mapping`: overwrite the file
image with the in-memory table. -/
def saveOrgMapping (st : OrgStore) : OrgStore :=
  { st with saved := st.mapping }

/-- Embedding of `TransactionParser.ensure_org_in_mapping`: when no entry
with exactly this key exists (a case-sensitive membership test), append a
placeholder entry with empty token and name and persist immediately;
otherwise do nothing. -/
def ensureOrgInMapping (st : OrgStore) (folderName : String) : OrgStore :=
  if (st.mapping.find? (fun p => p.1 == folderName)).isSome then st
  else
    saveOrgMapping
      { st with mapping := st.mapping ++ [(folderName, .entry "" "")] }

/-- An operation on the mapping store: auto-provisioning or a resolve
lookup. -/
inductive MappingOp where
  | ensure (folderName : String)
  | resolve (folderName : String)

/-- Apply one mapping operation; `resolve` (`get_org_id_by_folder_name`) is
read-only. -/
def applyMappingOp (st : OrgStore) : MappingOp → OrgStore
  | .ensure n => ensureOrgInMapping st n
  | .resolve _ => st

/-- Run a sequence of mapping operations. -/
def runMappingOps (st : OrgStore) (ops : List MappingOp) : OrgStore :=
  ops.foldl applyMappingOp st

/-- At most one mapping entry per folder name under case-insensitive
comparison: the lowered keys are pairwise distinct. -/
def CIUnique (m : OrgMapping) : Prop :=
  m.Pairwise (fun a b => pyLower a.1 ≠ pyLower b.1)

instance (m : OrgMapping) : Decidable (CIUnique m) := by
  unfold CIUnique; infer_instance

/-- Number of mapping entries whose key matches a folder name
case-insensitively. -/
def countCaseInsensitive (m : OrgMapping) (folderName : String) : Nat :=
  (m.filter (fun p => pyLower p.1 == pyLower folderName)).length

/-- At most one mapping entry per folder name under case-sensitive (exact)
comparison: the keys are pairwise distinct. -/
def CSUnique (m : OrgMapping) : Prop :=
  m.Pairwise (fun a b => a.1 ≠ b.1)

instance (m : OrgMapping) : Decidable (CSUnique m) := by
  unfold CSUnique; infer_instance

/-! ### Per-file parsing (`parse_file_detailed`)

The file is modelled by the DataFrame the reading step produces (headers
plus rows); the unreadable-file branches, which also return a null record
list with counts 0/0, are upstream of everything the claims about this
function state. -/

/-- A successfully read transaction file: its column headers in table order
and its data rows. -/
structure TFile where
  columns : List String
  rows : List Row

/-- The `(transactions, extracted, failed)` triple returned by
`parse_file_detailed`; a `none` record list is the null result of a skipped
or rejected file. -/
structure ParseOutcome where
  transactions : Option (List Transaction)
  extracted : Nat
  failed : Nat
deriving DecidableEq

/-- Python falsiness of a resolved column (`if not value`): missing, or an
empty header string. -/
def colFalsy : Option String → Bool
  | none => true
  | some s => s == ""

/-- Embedding of `TransactionParser.parse_file_detailed`: provision the
folder in the mapping, resolve its token, skip the file (null records, 0/0)
when the token is the empty string; resolve the five semantic columns and
reject the file (null records, 0/0) when any is falsy; otherwise extract the
rows.  Returns the updated store with the outcome. -/
def parseFileDetailed (st : OrgStore) (folderName : String) (file : TFile) :
    OrgStore × ParseOutcome :=
  let st1 := ensureOrgInMapping st folderName
  let token := getOrgIdByFolderName st1.mapping folderName
  if token == some "" then (st1, ⟨none, 0, 0⟩)
  else
    let datetimeCol := findColumnByNames file.columns datetimeCandidates
    let idTransactionCol := findColumnByNames file.columns idTransactionCandidates
    let cardNumberCol := findColumnByNames file.columns cardNumberCandidates
    let totalPriceCol := findColumnByNames file.columns totalPriceCandidates
    let totalDiscountCol := findColumnByNames file.columns totalDiscountCandidates
    if colFalsy datetimeCol || colFalsy idTransactionCol ||
        colFalsy cardNumberCol || colFalsy totalPriceCol ||
        colFalsy totalDiscountCol then
      (st1, ⟨none, 0, 0⟩)
    else
      match idTransactionCol, cardNumberCol, totalPriceCol with
      | some ic, some cc, some pc =>
        let r := extractTransactions file.rows datetimeCol ic cc pc totalDiscountCol
        (st1, ⟨some r.transactions, r.extracted, r.failed⟩)
      | _, _, _ => (st1, ⟨none, 0, 0⟩)

/-! ### Submission response interpretation (`_process_folder`)

Only the response-classification state machine is embedded; the transport
around it (HTTP success flag, response shape check) feeds it a status code
and the `result` dict. -/

/-- The `result` dict of a submission response.  A field is `none` when the
key is absent (or bound to a non-list value — `_list` collapses both
to `[]`). -/
structure SubResult where
  success : Option (List String)
  successes : Option (List String)
  fail : Option (List String)
  already_exist : Option (List String)
deriving DecidableEq

/-- Model of `_list(res.get(key))`: the bound list, or `[]`. -/
def listOr (x : Option (List String)) : List String :=
  x.getD []

/-- The classification of one submission response. -/
inductive SubOutcome where
  | validationError
  | classified (accepted rejected alreadyExist : List String)
  | protocolError
deriving DecidableEq

/-- Embedding of the status dispatch in `_process_folder`: status 0 is a
validation rejection; status 1 or 2 classifies the items, the accepted list
being `result.success` if that is a non-empty list and `result.successes`
otherwise (the Python `or` of the two `_list` results); any other status is
a protocol error. -/
def interpretResponse (status : Int) (res : SubResult) : SubOutcome :=
  if status = 0 then .validationError
  else if status = 1 ∨ status = 2 then
    .classified
      (if (listOr res.success).isEmpty then listOr res.successes
       else listOr res.success)
      (listOr res.fail) (listOr res.already_exist)
  else .protocolError

/-- The accepted-list rule exactly as the claim words it: drawn from
`result.success` for status 1 and from `result.successes` for status 2. -/
def claimAcceptedRule (status : Int) (res : SubResult) : List String :=
  if status = 1 then listOr res.success else listOr res.successes

/-- The accepted-list rule as the code implements it, written from the
amended claim: `result.success` when that is a non-empty list, otherwise
`result.successes`, for either accepted status. -/
def amendedAcceptedRule (res : SubResult) : List String :=
  if (listOr res.success).isEmpty then listOr res.successes
  else listOr res.success

/-! ### CSV delimiter detection (`_detect_csv_delimiter`,
`_read_transaction_file`) -/

/-- The `CSV_DELIMITERS` tuple; its one-character strings are modelled as
characters. -/
def CSV_DELIMITERS : List Char := [';', ',']

/-- Embedding of `TransactionParser._detect_csv_delimiter` applied to the
file's first line: the first delimiter of `CSV_DELIMITERS` occurring in it,
`none` when neither does. -/
def detectCsvDelimiter (firstLine : String) : Option Char :=
  CSV_DELIMITERS.find? (fun d => firstLine.data.contains d)

/-- The delimiter detection over the whole file, modelled as its list of
lines: only `readline()` — the first line, `""` for an empty file — is
consulted. -/
def detectCsvDelimiterOfLines (lines : List String) : Option Char :=
  detectCsvDelimiter (lines.headD "")

/-- The delimiter `_read_transaction_file` hands to the CSV reader: the
detected one, or the reader's default `','` when detection found none (the
`pd.read_csv` call without an explicit delimiter). -/
def csvReadDelimiter (lines : List String) : Char :=
  (detectCsvDelimiterOfLines lines).getD ','

/-! ### Concrete fixtures used by the closed theorems below -/

/-- The five headers of a fully populated transaction file. -/
def fullCols : List String :=
  ["date-time_transaction", "id_transaction", "id_card", "total_price",
   "total_discount"]

/-- A row that passes every row-level check (its datetime cell is
unparsable, which must not skip it). -/
def goodRow : Row :=
  [("date-time_transaction", .vStr "x"), ("id_transaction", .vStr "T1"),
   ("id_card", .vStr "9643123456789012345"), ("total_price", .vStr "12.5"),
   ("total_discount", .vStr "0")]

/-- The transaction record extracted from `goodRow`. -/
def goodTx : Transaction :=
  ⟨some none, some "T1", "9643123456789012345", .finite (Rat.divInt 25 2),
   .finite 0⟩

/-- `goodRow` with a wrong-prefix card number. -/
def badCardRow : Row :=
  [("date-time_transaction", .vStr "x"), ("id_transaction", .vStr "T2"),
   ("id_card", .vStr "1111123456789012345"), ("total_price", .vStr "12.5"),
   ("total_discount", .vStr "0")]

/-- A valid row exercising a parsable date, an NA transaction id, a padded
card cell, a negative price and a fractional discount. -/
def extraRow : Row :=
  [("date-time_transaction", .vStr "2024-01-02"), ("id_transaction", .vNA),
   ("id_card", .vStr " 9643999999999999999 "), ("total_price", .vStr "-3"),
   ("total_discount", .vStr "1.5")]

/-- The transaction record extracted from `extraRow`. -/
def extraTx : Transaction :=
  ⟨some (some "2024-01-02T00:00:00"), none, "9643999999999999999",
   .finite (-3), .finite (Rat.divInt 3 2)⟩

/-- A one-row file carrying all five semantic columns. -/
def goodFile : TFile := ⟨fullCols, [goodRow]⟩

/-- A file identical to `goodFile` except that no `total_discount` column is
present; its single row has the coercible price `"12.5"`. -/
def noDiscountFile : TFile :=
  ⟨["date-time_transaction", "id_transaction", "id_card", "total_price"],
   [[("date-time_transaction", .vStr "x"), ("id_transaction", .vStr "T1"),
     ("id_card", .vStr "9643123456789012345"),
     ("total_price", .vStr "12.5")]]⟩

/-- `goodRow` with a non-coercible price cell. -/
def badPriceRow : Row :=
  [("date-time_transaction", .vStr "x"), ("id_transaction", .vStr "T4"),
   ("id_card", .vStr "9643123456789012345"), ("total_price", .vStr "abc"),
   ("total_discount", .vStr "0")]

/-- `goodRow` with a non-coercible discount cell. -/
def badDiscountRow : Row :=
  [("date-time_transaction", .vStr "x"), ("id_transaction", .vStr "T5"),
   ("id_card", .vStr "9643123456789012345"), ("total_price", .vStr "12.5"),
   ("total_discount", .vStr "oops")]

/-- `goodRow` with the price `"inf"`, which `float` coerces without an
exception. -/
def rowInf : Row :=
  [("date-time_transaction", .vStr "x"), ("id_transaction", .vStr "T9"),
   ("id_card", .vStr "9643123456789012345"), ("total_price", .vStr "inf"),
   ("total_discount", .vStr "0")]

/-- The transaction record extracted from `rowInf`: its price is positive
infinity. -/
def txInf : Transaction :=
  ⟨some none, some "T9", "9643123456789012345", .posInf, .finite 0⟩

/-- A store whose only folder has a usable token. -/
def orgStoreTok : OrgStore :=
  ⟨[("Org1", .entry "tok" "Org One")], [("Org1", .entry "tok" "Org One")]⟩

/-- A store whose only entry is a dict without a `token` key: the folder's
identity is missing (resolution yields no token at all). -/
def orgStoreMalformed : OrgStore :=
  ⟨[("Acme", .dictNoToken)], [("Acme", .dictNoToken)]⟩

/-- A store holding exactly one, well-tokened entry under the key
`"Acme"`. -/
def caseStore : OrgStore :=
  ⟨[("Acme", .entry "tok-1" "Acme Ltd")], [("Acme", .entry "tok-1" "Acme Ltd")]⟩

/-- A `result` dict carrying both a non-empty `success` and a non-empty
`successes` list. -/
def resBothKeys : SubResult := ⟨some ["a"], some ["b"], some [], some []⟩

/-- The `result` dict of the response
`{"status":1,"result":{"success":["t1"],"fail":[],"already_exist":["t2"]}}`. -/
def resClaimExample : SubResult := ⟨some ["t1"], none, some [], some ["t2"]⟩

/-! ## Helper lemmas -/

theorem rest_isSome_congr (row : Row) (df1 df2 : Option (Option String))
    (ic cc pc : String) (dc : Option String) :
    (buildTransactionRest row df1 ic cc pc dc).isSome =
      (buildTransactionRest row df2 ic cc pc dc).isSome := by
  simp only [buildTransactionRest]
  repeat' split <;> try rfl

theorem rest_datetime_eq (row : Row) (df : Option (Option String))
    (ic cc pc : String) (dc : Option String) (t : Transaction)
    (h : buildTransactionRest row df ic cc pc dc = some t) :
    t.datetime = df := by
  simp only [buildTransactionRest] at h
  repeat' split at h
  all_goals (try cases h)
  all_goals rfl

theorem rest_price (row : Row) (df : Option (Option String))
    (ic cc pc : String) (dc : Option String) (t : Transaction)
    (h : buildTransactionRest row df ic cc pc dc = some t) :
    ∃ v, getCell row pc = some v ∧ parseTotalPrice v = some t.totalPrice := by
  simp only [buildTransactionRest] at h
  repeat' split at h
  all_goals (try cases h)
  all_goals first
  | (exact absurd rfl (by assumption))
  | (exact ⟨_, by assumption, by simp only []; assumption⟩)

theorem rest_none_of_price (row : Row) (df : Option (Option String))
    (ic cc pc : String) (dc : Option String) (v : Value)
    (hv : getCell row pc = some v) (hp : parseTotalPrice v = none) :
    buildTransactionRest row df ic cc pc dc = none := by
  simp only [buildTransactionRest]
  repeat' split
  all_goals (try rfl)
  all_goals simp_all

theorem rest_none_of_discount (row : Row) (df : Option (Option String))
    (ic cc pc dcol : String) (v : Value)
    (hv : getCell row dcol = some v) (hp : parseTotalDiscount v = none) :
    buildTransactionRest row df ic cc pc (some dcol) = none := by
  simp only [buildTransactionRest]
  repeat' split
  all_goals (try rfl)
  all_goals simp_all

theorem findColumnByNames_eq_none_iff (columns names : List String) :
    findColumnByNames columns names = none ↔
      ∀ n ∈ names, ∀ c ∈ columns, normalizeHeader c ≠ normalizeHeader n := by
  simp [findColumnByNames, List.findSome?_eq_none_iff, List.find?_eq_none]

theorem findColumnByNames_eq_some_iff (columns names : List String) (c : String) :
    findColumnByNames columns names = some c ↔
      ∃ names₁ n names₂, names = names₁ ++ n :: names₂ ∧
        (∀ n2 ∈ names₁, ∀ c2 ∈ columns, normalizeHeader c2 ≠ normalizeHeader n2) ∧
        ∃ cols₁ cols₂, columns = cols₁ ++ c :: cols₂ ∧
          normalizeHeader c = normalizeHeader n ∧
          (∀ c2 ∈ cols₁, normalizeHeader c2 ≠ normalizeHeader n) := by
  rw [findColumnByNames, List.findSome?_eq_some_iff]
  constructor
  · rintro ⟨l₁, n, l₂, rfl, hfind, hnone⟩
    rw [List.find?_eq_some] at hfind
    obtain ⟨hc, cols₁, cols₂, rfl, hpre⟩ := hfind
    refine ⟨l₁, n, l₂, rfl, ?_, cols₁, cols₂, rfl, by simpa using hc, ?_⟩
    · intro n2 hn2 c2 hc2
      have := hnone n2 hn2
      rw [List.find?_eq_none] at this
      simpa using this c2 hc2
    · intro c2 hc2
      simpa using hpre c2 hc2
  · rintro ⟨l₁, n, l₂, rfl, hnames, cols₁, cols₂, rfl, hnorm, hcols⟩
    refine ⟨l₁, n, l₂, rfl, ?_, ?_⟩
    · rw [List.find?_eq_some]
      exact ⟨by simpa using hnorm, cols₁, cols₂, rfl,
        fun a ha => by simpa using hcols a ha⟩
    · intro n2 hn2
      rw [List.find?_eq_none]
      intro c2 hc2
      simpa using hnames n2 hn2 c2 hc2

theorem ensureOrgInMapping_mem (st : OrgStore) (n : String) :
    (((ensureOrgInMapping st n).mapping.find? (fun p => p.1 == n)).isSome) = true := by
  unfold ensureOrgInMapping
  cases hf : st.mapping.find? (fun p => p.1 == n) with
  | some p => simp [hf]
  | none => simp [hf, saveOrgMapping, List.find?_append]

theorem ensureOrgInMapping_new (st : OrgStore) (n : String)
    (h : st.mapping.find? (fun p => p.1 == n) = none) :
    (ensureOrgInMapping st n).mapping = st.mapping ++ [(n, .entry "" "")] ∧
      (ensureOrgInMapping st n).saved = (ensureOrgInMapping st n).mapping := by
  unfold ensureOrgInMapping
  simp [h, saveOrgMapping]

theorem ensure_noop (st : OrgStore) (n : String)
    (hmem : ((st.mapping.find? (fun p => p.1 == n)).isSome) = true) :
    ensureOrgInMapping st n = st := by
  unfold ensureOrgInMapping
  simp [hmem]

theorem ensure_CSUnique (st : OrgStore) (n : String)
    (h : CSUnique st.mapping) : CSUnique (ensureOrgInMapping st n).mapping := by
  unfold ensureOrgInMapping
  split
  · exact h
  · rename_i hfind
    have hf : st.mapping.find? (fun p => p.1 == n) = none := by
      cases hfx : st.mapping.find? (fun p => p.1 == n) <;> simp_all
    rw [List.find?_eq_none] at hf
    unfold CSUnique at h ⊢
    simp only [saveOrgMapping]
    rw [List.pairwise_append]
    refine ⟨h, List.pairwise_singleton _ _, ?_⟩
    intro a ha b hb
    simp only [List.mem_singleton] at hb
    subst hb
    simpa using hf a ha

theorem strptime_isValid (s fmt : String) (d : DateTime)
    (h : strptime s fmt = some d) : isValidDateTime d = true := by
  simp only [strptime] at h
  split at h
  · exact absurd h (by simp)
  · split at h
    · rename_i hv
      simp only [Option.some.injEq] at h
      subst h
      exact hv
    · exact absurd h (by simp)

theorem pdToDatetime_isValid (s : String) (d : DateTime)
    (h : pdToDatetime s = some d) : isValidDateTime d = true := by
  unfold pdToDatetime at h
  split at h
  · obtain ⟨fmt, _, hf⟩ := List.exists_of_findSome?_eq_some h
    exact strptime_isValid _ _ _ hf
  · exact absurd h (by simp)

/-! ## Claim C1 -/

/-- Claim C1 (counterexample): contrary to the claimed permissive default, a
file without a `total_discount` column is rejected outright — even though its
single row's price cell `"12.5"` coerces to a number, `parse_file_detailed`
returns a null record list with counts 0/0, so no record with
`total_discount == 0.0` is extracted. -/
theorem claim1_counterexample :
    parseTotalPrice (.vStr "12.5") = some (.finite (Rat.divInt 25 2)) ∧
      parseFileDetailed orgStoreTok "Org1" noDiscountFile =
        (orgStoreTok, ⟨none, 0, 0⟩) := by
  exact ⟨by decide, by decide⟩

/-- Claim C1 (amended): `total_discount` is a required column — a file in
which no `total_discount` column resolves is rejected with a null record list
and counts 0/0; and when the column is present, a discount cell that fails
coercion skips its row rather than defaulting to 0.0. -/
theorem claim1_discount_required :
    (∀ (st : OrgStore) (folder : String) (file : TFile),
        findColumnByNames file.columns totalDiscountCandidates = none →
        parseFileDetailed st folder file =
          (ensureOrgInMapping st folder, ⟨none, 0, 0⟩)) ∧
      (∀ (row : Row) (dtc : Option String) (idc cc pc dcol : String) (v : Value),
        getCell row dcol = some v → parseTotalDiscount v = none →
        buildTransaction row dtc idc cc pc (some dcol) = none) := by
  constructor
  · intro st folder file h
    simp only [parseFileDetailed, h, colFalsy, Bool.or_true, if_true]
    split <;> rfl
  · intro row dtc idc cc pc dcol v hv hp
    cases dtc with
    | none => exact rest_none_of_discount row none idc cc pc dcol v hv hp
    | some c =>
      simp only [buildTransaction]
      cases hc : getCell row c with
      | none => rfl
      | some w => exact rest_none_of_discount row _ idc cc pc dcol v hv hp

/-- Claim C1 witness: the amended theorem applied to the concrete
discount-free file and to a concrete row with a non-coercible discount. -/
theorem claim1_discount_required_witness :
    parseFileDetailed orgStoreTok "Org1" noDiscountFile =
      (ensureOrgInMapping orgStoreTok "Org1", ⟨none, 0, 0⟩) ∧
    buildTransaction badDiscountRow (some "date-time_transaction")
      "id_transaction" "id_card" "total_price" (some "total_discount") = none :=
  ⟨claim1_discount_required.1 orgStoreTok "Org1" noDiscountFile (by decide),
   claim1_discount_required.2 badDiscountRow _ _ _ _ "total_discount"
     (.vStr "oops") (by decide) (by decide)⟩

/-! ## Claim C2 -/

/-- Claim C2 (counterexample): a folder whose identity is missing (its
mapping entry is a dict with no `token` key, so resolution yields no token at
all) is NOT skipped — `parse_file_detailed` reads the file and extracts its
row, because the skip test compares the token against the empty string only. -/
theorem claim2_counterexample :
    getOrgIdByFolderName ((ensureOrgInMapping orgStoreMalformed "Acme").mapping)
        "Acme" = none ∧
      parseFileDetailed orgStoreMalformed "Acme" goodFile =
        (orgStoreMalformed, ⟨some [goodTx], 1, 0⟩) := by
  exact ⟨by decide, by decide⟩

/-- Claim C2 (amended): for every folder whose resolved identity is the EMPTY
STRING, every file is skipped — `parse_file_detailed` returns a null record
list with counts 0/0 — a placeholder entry for the folder is present in the
mapping, and when the folder had no entry the placeholder was freshly
appended and persisted. -/
theorem claim2_empty_token_skips (st : OrgStore) (folder : String) (file : TFile)
    (h : getOrgIdByFolderName (ensureOrgInMapping st folder).mapping folder =
      some "") :
    parseFileDetailed st folder file = (ensureOrgInMapping st folder, ⟨none, 0, 0⟩) ∧
      ((ensureOrgInMapping st folder).mapping.find?
        (fun p => p.1 == folder)).isSome = true ∧
      (st.mapping.find? (fun p => p.1 == folder) = none →
        (ensureOrgInMapping st folder).mapping =
          st.mapping ++ [(folder, .entry "" "")] ∧
        (ensureOrgInMapping st folder).saved =
          (ensureOrgInMapping st folder).mapping) := by
  refine ⟨?_, ensureOrgInMapping_mem st folder,
    fun hn => ensureOrgInMapping_new st folder hn⟩
  simp only [parseFileDetailed, h, beq_self_eq_true, if_true]

/-- Claim C2 witness: a freshly provisioned folder resolves to the empty
token, so its file is skipped with the zero-extraction outcome. -/
theorem claim2_empty_token_skips_witness :
    parseFileDetailed ⟨[], []⟩ "NewOrg" goodFile =
      (ensureOrgInMapping ⟨[], []⟩ "NewOrg", ⟨none, 0, 0⟩) ∧
      (ensureOrgInMapping ⟨[], []⟩ "NewOrg").mapping =
        [("NewOrg", .entry "" "")] := by
  have h := claim2_empty_token_skips ⟨[], []⟩ "NewOrg" goodFile (by decide)
  exact ⟨h.1, by simpa using (h.2.2 rfl).1⟩

/-! ## Claim C3 -/

/-- Claim C3 (counterexample): starting from a mapping satisfying
case-insensitive at-most-one, `ensure_org_in_mapping "acme"` — whose
membership test is case-sensitive — inserts a second entry next to `"Acme"`,
after which the folder name `"acme"` matches two entries case-insensitively. -/
theorem claim3_counterexample :
    CIUnique caseStore.mapping ∧
      ¬ CIUnique (runMappingOps caseStore [.ensure "acme"]).mapping ∧
      countCaseInsensitive caseStore.mapping "acme" = 1 ∧
      countCaseInsensitive (runMappingOps caseStore [.ensure "acme"]).mapping
        "acme" = 2 := by
  decide

/-- Claim C3 (amended): under case-SENSITIVE comparison the invariant holds —
any sequence of `ensure_org_in_mapping` and resolve operations started from a
mapping with pairwise distinct keys preserves that at most one entry carries
any exact folder name. -/
theorem claim3_case_sensitive_uniqueness (st : OrgStore) (ops : List MappingOp)
    (h : CSUnique st.mapping) : CSUnique (runMappingOps st ops).mapping := by
  induction ops generalizing st with
  | nil => exact h
  | cons op ops ih =>
    cases op with
    | ensure n => exact ih _ (ensure_CSUnique st n h)
    | resolve n => exact ih _ h

/-- Claim C3 witness: the amended preservation theorem applied to a concrete
store and operation sequence. -/
theorem claim3_case_sensitive_uniqueness_witness :
    CSUnique caseStore.mapping ∧
      CSUnique (runMappingOps caseStore
        [.ensure "acme", .resolve "ACME", .ensure "acme"]).mapping :=
  ⟨by decide, claim3_case_sensitive_uniqueness caseStore _ (by decide)⟩

/-! ## Claim C4 -/

/-- Claim C4 (counterexample): the accepted set is not drawn by status — for
a status-2 response whose `result` carries both keys, the code takes the
non-empty `success` list `["a"]`, while the claimed rule reads `successes`
and yields `["b"]`. -/
theorem claim4_counterexample :
    interpretResponse 2 resBothKeys = .classified ["a"] [] [] ∧
      claimAcceptedRule 2 resBothKeys = ["b"] ∧ (["a"] : List String) ≠ ["b"] := by
  refine ⟨?_, rfl, by decide⟩
  norm_num [interpretResponse, resBothKeys, listOr]

/-- Claim C4 (amended): for every response with status 1 or 2 the accepted
set is `result.success` when that is a non-empty list and `result.successes`
otherwise, `result.fail` names the rejected items and `result.already_exist`
the duplicates, counted separately; the claim's concrete example response
classifies exactly one accepted, zero rejected and one duplicate. -/
theorem claim4_response_classification :
    (∀ status : Int, ∀ res : SubResult, status = 1 ∨ status = 2 →
        interpretResponse status res =
          .classified (amendedAcceptedRule res) (listOr res.fail)
            (listOr res.already_exist)) ∧
      interpretResponse 1 resClaimExample = .classified ["t1"] [] ["t2"] ∧
      (["t1"] : List String).length = 1 ∧ ([] : List String).length = 0 ∧
      (["t2"] : List String).length = 1 := by
  refine ⟨?_, ?_, rfl, rfl, rfl⟩
  · rintro status res (rfl | rfl) <;>
      norm_num [interpretResponse, amendedAcceptedRule]
  · norm_num [interpretResponse, resClaimExample, listOr, amendedAcceptedRule]

/-- Claim C4 witness: the classification rule applied to a concrete status-2
response. -/
theorem claim4_response_classification_witness :
    interpretResponse 2 ⟨none, some ["x1"], some ["f1"], none⟩ =
      .classified ["x1"] ["f1"] [] :=
  (claim4_response_classification.1 2 ⟨none, some ["x1"], some ["f1"], none⟩
    (Or.inr rfl)).trans (by norm_num [amendedAcceptedRule, listOr])

/-! ## Claim C5 -/

/-- Claim C5: the strict card validator accepts a cell iff its stripped
string form is non-empty, of length exactly 19, and starts with `"9643"`;
the three concrete cards behave as claimed, and in a three-row table the
wrong-prefix row alone is skipped while both surrounding rows are extracted. -/
theorem claim5_card_validator :
    (∀ v : Value, (parseCardNumber v).isSome = true ↔
        (pyStrip (pyStr v) ≠ "" ∧ (pyStrip (pyStr v)).length = 19 ∧
          pyStartsWith (pyStrip (pyStr v)) "9643" = true)) ∧
      parseCardNumber (.vStr "9643123456789012345") = some "9643123456789012345" ∧
      parseCardNumber (.vStr "1111123456789012345") = none ∧
      parseCardNumber (.vStr "96431234") = none ∧
      extractTransactions [goodRow, badCardRow, extraRow]
        (some "date-time_transaction") "id_transaction" "id_card" "total_price"
        (some "total_discount") = ⟨[goodTx, extraTx], 2, 1⟩ := by
  refine ⟨?_, by decide, by decide, by decide, by decide⟩
  intro v
  cases v with
  | vNA => decide
  | vStr s =>
    simp only [parseCardNumber, pdNotNa, pyStr, Bool.true_and]
    by_cases h1 : (pyStrip s == "") = true
    · have he : pyStrip s = "" := by simpa using h1
      simp [h1, he]
    · by_cases h2 : ((pyStrip s).length == 19 && pyStartsWith (pyStrip s) "9643") = true
      · simp only [h1, Bool.not_false, if_true, h2, Option.isSome_some, true_iff]
        rw [Bool.and_eq_true, beq_iff_eq] at h2
        exact ⟨by simpa using h1, h2.1, h2.2⟩
      · have hif : ((pyStrip s).length == 19 && pyStartsWith (pyStrip s) "9643") =
            false := by simpa using h2
        simp only [h1, Bool.not_false, if_true, hif, Bool.false_eq_true, if_false,
          Option.isSome_none, false_iff]
        rintro ⟨hne, hlen, hpre⟩
        exact h2 (by simp [hlen, hpre])

/-- Claim C5 witness: the acceptance characterization applied to a concrete
padded card cell. -/
theorem claim5_card_validator_witness :
    (parseCardNumber (.vStr " 9643123456789012345 ")).isSome = true :=
  (claim5_card_validator.1 (.vStr " 9643123456789012345 ")).mpr (by decide)

/-! ## Claim C6 -/

/-- Claim C6: `find_column_by_names` returns `none` exactly when no header
normalizes like any candidate; a returned header is the first match scanning
candidates in priority order and headers in table order; and whenever some
header differs from some candidate only by case, underscores or spaces
(i.e. their normalized forms coincide), a header is returned rather than
`none`. -/
theorem claim6_column_resolution :
    (∀ columns names : List String, findColumnByNames columns names = none ↔
        ∀ n ∈ names, ∀ c ∈ columns, normalizeHeader c ≠ normalizeHeader n) ∧
      (∀ (columns names : List String) (c : String),
        findColumnByNames columns names = some c ↔
          ∃ names₁ n names₂, names = names₁ ++ n :: names₂ ∧
            (∀ n2 ∈ names₁, ∀ c2 ∈ columns,
              normalizeHeader c2 ≠ normalizeHeader n2) ∧
            ∃ cols₁ cols₂, columns = cols₁ ++ c :: cols₂ ∧
              normalizeHeader c = normalizeHeader n ∧
              (∀ c2 ∈ cols₁, normalizeHeader c2 ≠ normalizeHeader n)) ∧
      (∀ (columns names : List String) (c n : String), c ∈ columns → n ∈ names →
        normalizeHeader c = normalizeHeader n →
        (findColumnByNames columns names).isSome = true) := by
  refine ⟨findColumnByNames_eq_none_iff, findColumnByNames_eq_some_iff, ?_⟩
  intro columns names c n hc hn hnorm
  cases hres : findColumnByNames columns names with
  | some x => rfl
  | none =>
    exact absurd hnorm ((findColumnByNames_eq_none_iff _ _).mp hres n hn c hc)

/-- Claim C6 witness: the match-found clause applied to a header differing
from its candidate only by case and underscore placement. -/
theorem claim6_column_resolution_witness :
    (findColumnByNames ["Total Price", "ID_Card"] cardNumberCandidates).isSome =
      true :=
  claim6_column_resolution.2.2 ["Total Price", "ID_Card"] cardNumberCandidates
    "ID_Card" "id_card" (by decide) (by decide) (by decide)

/-! ## Claim C7 -/

/-- Claim C7: `normalize_date_format` is total and returns either `none` or
the ISO rendering of a validated timestamp; `"not-a-date"` yields `none`; and
a `none` normalization never skips the row — whether the row is kept does not
depend on the datetime outcome, and a kept row records exactly the
normalization result. -/
theorem claim7_date_normalization :
    (∀ v : Value, normalizeDateFormat v = none ∨
        ∃ d : DateTime, isValidDateTime d = true ∧
          normalizeDateFormat v = some (isoformat d)) ∧
      normalizeDateFormat (.vStr "not-a-date") = none ∧
      (∀ (row : Row) (dtc : String) (v : Value) (idc cc pc : String)
          (dc : Option String), getCell row dtc = some v →
        ((buildTransaction row (some dtc) idc cc pc dc).isSome =
          (buildTransaction row none idc cc pc dc).isSome) ∧
        (∀ t, buildTransaction row (some dtc) idc cc pc dc = some t →
          t.datetime = some (normalizeDateFormat v))) := by
  refine ⟨?_, by decide, ?_⟩
  · intro v
    cases v with
    | vNA => exact Or.inl rfl
    | vStr s =>
      cases h : DATE_FORMATS.findSome? (fun fmt => strptime (pyStrip s) fmt) with
      | some d =>
        refine Or.inr ⟨d, ?_, by simp [normalizeDateFormat, h]⟩
        obtain ⟨fmt, _, hf⟩ := List.exists_of_findSome?_eq_some h
        exact strptime_isValid _ _ _ hf
      | none =>
        cases h2 : pdToDatetime (pyStrip s) with
        | some d =>
          exact Or.inr ⟨d, pdToDatetime_isValid _ _ h2,
            by simp [normalizeDateFormat, h, h2]⟩
        | none => exact Or.inl (by simp [normalizeDateFormat, h, h2])
  · intro row dtc v idc cc pc dc h
    constructor
    · simp only [buildTransaction, h]
      exact rest_isSome_congr row _ _ idc cc pc dc
    · intro t ht
      simp only [buildTransaction, h] at ht
      exact rest_datetime_eq row _ idc cc pc dc t ht

/-- Claim C7 witness: the row-preservation clause applied to a concrete row
whose datetime cell does not normalize. -/
theorem claim7_date_normalization_witness :
    ((buildTransaction goodRow (some "date-time_transaction") "id_transaction"
        "id_card" "total_price" (some "total_discount")).isSome =
      (buildTransaction goodRow none "id_transaction" "id_card" "total_price"
        (some "total_discount")).isSome) ∧
      normalizeDateFormat (.vStr "x") = none :=
  ⟨(claim7_date_normalization.2.2 goodRow "date-time_transaction" (.vStr "x")
      "id_transaction" "id_card" "total_price" (some "total_discount")
      (by decide)).1, by decide⟩

/-! ## Claim C8 -/

/-- Claim C8 (counterexample): the price cell `"inf"` coerces without an
exception, so its row is kept — counted extracted, not failed — and the
extracted record's `total_price` is positive infinity, which is not finite. -/
theorem claim8_counterexample :
    extractTransactions [rowInf] (some "date-time_transaction") "id_transaction"
        "id_card" "total_price" (some "total_discount") = ⟨[txInf], 1, 0⟩ ∧
      isFinite txInf.totalPrice = false ∧
      parseTotalPrice (.vStr "inf") = some .posInf := by
  exact ⟨by decide, by decide, by decide⟩

/-- Claim C8 (amended): a row is skipped unless its `total_price` cell
coerces to a float at all — coercion failure always skips the row, and every
kept row's record carries exactly the coerced price, which need not be
finite. -/
theorem claim8_price_gate :
    (∀ (row : Row) (dtc : Option String) (idc cc pc : String) (dc : Option String)
        (v : Value), getCell row pc = some v → parseTotalPrice v = none →
        buildTransaction row dtc idc cc pc dc = none) ∧
      (∀ (row : Row) (dtc : Option String) (idc cc pc : String) (dc : Option String)
          (t : Transaction), buildTransaction row dtc idc cc pc dc = some t →
        ∃ v, getCell row pc = some v ∧ parseTotalPrice v = some t.totalPrice) := by
  constructor
  · intro row dtc idc cc pc dc v hv hp
    cases dtc with
    | none => exact rest_none_of_price row none idc cc pc dc v hv hp
    | some c =>
      simp only [buildTransaction]
      cases hc : getCell row c with
      | none => rfl
      | some w => exact rest_none_of_price row _ idc cc pc dc v hv hp
  · intro row dtc idc cc pc dc t ht
    cases dtc with
    | none => exact rest_price row none idc cc pc dc t ht
    | some c =>
      simp only [buildTransaction] at ht
      cases hc : getCell row c with
      | none => rw [hc] at ht; exact absurd ht (by simp)
      | some w => rw [hc] at ht; exact rest_price row _ idc cc pc dc t ht

/-- Claim C8 witness: the skip direction applied to a concrete row whose
price cell does not coerce. -/
theorem claim8_price_gate_witness :
    buildTransaction badPriceRow (some "date-time_transaction") "id_transaction"
      "id_card" "total_price" (some "total_discount") = none :=
  claim8_price_gate.1 badPriceRow _ _ _ _ _ (.vStr "abc") (by decide) (by decide)

/-! ## Claim C9 -/

/-- Claim C9: `ensure_org_in_mapping` on a folder name with no entry appends
exactly one placeholder entry with an empty identity and immediately persists
the mapping; a second call with the same name is a no-op, the whole store
unchanged. -/
theorem claim9_ensure_provisioning (st : OrgStore) (n : String)
    (h : st.mapping.find? (fun p => p.1 == n) = none) :
    (ensureOrgInMapping st n).mapping = st.mapping ++ [(n, .entry "" "")] ∧
      (ensureOrgInMapping st n).saved = (ensureOrgInMapping st n).mapping ∧
      ((ensureOrgInMapping st n).mapping.filter (fun p => p.1 == n)).length = 1 ∧
      ensureOrgInMapping (ensureOrgInMapping st n) n = ensureOrgInMapping st n := by
  obtain ⟨hm, hs⟩ := ensureOrgInMapping_new st n h
  refine ⟨hm, hs, ?_, ?_⟩
  · rw [hm, List.filter_append]
    have : st.mapping.filter (fun p => p.1 == n) = [] := by
      rw [List.filter_eq_nil_iff]
      intro a ha
      rw [List.find?_eq_none] at h
      exact h a ha
    simp [this]
  · exact ensure_noop _ n (ensureOrgInMapping_mem st n)

/-- Claim C9 witness: provisioning `"NewOrg"` on an empty store. -/
theorem claim9_ensure_provisioning_witness :
    (⟨[], []⟩ : OrgStore).mapping.find? (fun p => p.1 == "NewOrg") = none ∧
      (ensureOrgInMapping ⟨[], []⟩ "NewOrg").mapping = [("NewOrg", .entry "" "")] ∧
      ensureOrgInMapping (ensureOrgInMapping ⟨[], []⟩ "NewOrg") "NewOrg" =
        ensureOrgInMapping ⟨[], []⟩ "NewOrg" := by
  refine ⟨rfl, ?_, (claim9_ensure_provisioning ⟨[], []⟩ "NewOrg" rfl).2.2.2⟩
  exact (claim9_ensure_provisioning ⟨[], []⟩ "NewOrg" rfl).1

/-! ## Claim C10 -/

/-- Claim C10: the CSV delimiter is detected from the first line alone; `;`
takes precedence whenever it occurs, `,` is chosen when only it occurs, and
when neither occurs detection yields `none` and the file is read with the
CSV reader's default delimiter `,` rather than rejected. -/
theorem claim10_csv_delimiter :
    (∀ l1 l2 : List String, l1.headD "" = l2.headD "" →
        detectCsvDelimiterOfLines l1 = detectCsvDelimiterOfLines l2) ∧
      (∀ line : String, line.data.contains ';' = true →
        detectCsvDelimiter line = some ';') ∧
      (∀ line : String, line.data.contains ';' = false →
        line.data.contains ',' = true → detectCsvDelimiter line = some ',') ∧
      (∀ line : String, line.data.contains ';' = false →
        line.data.contains ',' = false → detectCsvDelimiter line = none) ∧
      (∀ lines : List String, detectCsvDelimiterOfLines lines = none →
        csvReadDelimiter lines = ',') := by
  refine ⟨?_, ?_, ?_, ?_, ?_⟩
  · intro l1 l2 h
    unfold detectCsvDelimiterOfLines
    rw [h]
  · intro line h
    unfold detectCsvDelimiter CSV_DELIMITERS
    rw [List.find?_cons_of_pos _ h]
  · intro line h1 h2
    unfold detectCsvDelimiter CSV_DELIMITERS
    rw [List.find?_cons_of_neg _ (by simpa using h1), List.find?_cons_of_pos _ h2]
  · intro line h1 h2
    unfold detectCsvDelimiter CSV_DELIMITERS
    rw [List.find?_cons_of_neg _ (by simpa using h1),
      List.find?_cons_of_neg _ (by simpa using h2)]
    rfl
  · intro lines h
    simp [csvReadDelimiter, h]

/-- Claim C10 witness: the detection rules applied to concrete files — a
first line with both characters, one with only a comma, and one with
neither. -/
theorem claim10_csv_delimiter_witness :
    detectCsvDelimiterOfLines ["a;b,c", "x,y"] = some ';' ∧
      detectCsvDelimiterOfLines ["a,b", "p;q"] = some ',' ∧
      csvReadDelimiter ["ab", "c;d"] = ',' := by
  refine ⟨?_, ?_, claim10_csv_delimiter.2.2.2.2 ["ab", "c;d"] (by decide)⟩
  · exact claim10_csv_delimiter.2.1 "a;b,c" (by decide)
  · exact claim10_csv_delimiter.2.2.1 "a,b" (by decide) (by decide)

end TxParser
